import Mathlib

/-!
Verification of the sysctl.present state module (src/salt/states/sysctl.py).

The module is a single decision procedure present(name, value, config=None)
over four external collaborators (the salt function table) and one ambient
flag (the test/dry-run option).  We embed it shallowly: the collaborators
and the test flag are gathered in an explicit Env record, Python dict
results are association lists, a dict lookup that can raise KeyError is
modelled by Except PyErr, and the collaborator invocations performed by
one call of present are recorded as a list of Call events so that frame
conditions (such as "dry run never calls persist") are statable.
-/

namespace Sysctl

/-- Helper for pySplit: splits a character list on whitespace, carrying
the (reversed) current token.  Structural recursion on the character list. -/
def pySplitAux : List Char → List Char → List String
  | [], acc => if acc.isEmpty then [] else [String.mk acc.reverse]
  | c :: rest, acc =>
      if c.isWhitespace then
        if acc.isEmpty then pySplitAux rest []
        else String.mk acc.reverse :: pySplitAux rest []
      else pySplitAux rest (c :: acc)

/-- The Python str.split() method with no argument: split on runs of
whitespace, discarding empty tokens. Used by present for the value
comparisons. -/
def pySplit (s : String) : List String :=
  pySplitAux s.toList []

/-- Whether pat is a prefix of hay, over character lists. -/
def prefixAt : List Char → List Char → Bool
  | [], _ => true
  | _ :: _, [] => false
  | a :: as, b :: bs => a == b && prefixAt as bs

/-- Whether pat occurs as a contiguous run inside hay. -/
def occursIn (hay pat : List Char) : Bool :=
  match hay with
  | [] => pat.isEmpty
  | _ :: rest => prefixAt pat hay || occursIn rest pat

/-- The Python substring test (pat in s). -/
def containsSubstr (s pat : String) : Bool :=
  occursIn s.toList pat.toList

/-- A Python exception that present can let escape: the KeyError raised
by the dict access configured[name] in the dry-run branch when name is
absent from the persisted mapping. -/
inductive PyErr where
  | keyError (key : String)
deriving Repr, DecidableEq

/-- The ret dictionary built by present: keys name, result, changes,
comment.  The result field is some true / some false / none for the
Python values True / False / None; changes is the dict as an association
list. -/
structure StateRet where
  name : String
  result : Option Bool
  changes : List (String × String)
  comment : String
deriving Repr, DecidableEq

/-- One collaborator invocation made by present: the live read
(sysctl.get), the default-config query (sysctl.default_config), the
persisted-config read (sysctl.show) or the persist (sysctl.persist). -/
inductive Call where
  | get (name : String)
  | defaultConfig
  | showConf (configFile : String)
  | persist (name value configFile : String)
deriving Repr, DecidableEq

/-- Recognize the mutating collaborator invocation. -/
def isPersistCall : Call → Bool
  | Call.persist _ _ _ => true
  | _ => false

/-- Recognize the persisted-config read. -/
def isShowCall : Call → Bool
  | Call.showConf _ => true
  | _ => false

/-- The ambient state of one call: the collaborator table and the
test/dry-run flag.  Here get is sysctl.get; hasDefaultConfig is the
membership test for sysctl.default_config in the table and defaultConfig
its result when present; showConfig is sysctl.show on a config file,
returning the persisted mapping; persist is sysctl.persist, returning a
status token or raising CommandExecutionError (modelled as Except.error
carrying the error text). -/
structure Env where
  get : String → String
  hasDefaultConfig : Bool
  defaultConfig : String
  showConfig : String → List (String × String)
  persist : String → String → String → Except String String
  test : Bool

/-- The config-path resolution step of present: a supplied config is used
as is; otherwise sysctl.default_config is invoked when available, else
the literal /etc/sysctl.conf.  Returns the resolved path and the
collaborator invocations this step performed. -/
def resolveConfig (env : Env) (config? : Option String) : String × List Call :=
  match config? with
  | some c => (c, [])
  | none =>
      if env.hasDefaultConfig then (env.defaultConfig, [Call.defaultConfig])
      else ("/etc/sysctl.conf", [])

/-- The body of present(name, value, config=None), line for line from
src/salt/states/sysctl.py.  Returns the result dictionary (or the escaped
KeyError) together with the trace of collaborator invocations. -/
def present (env : Env) (name value : String) (config? : Option String) :
    Except PyErr StateRet × List Call :=
  let ret : StateRet := { name := name, result := some true, changes := [], comment := "" }
  let current := env.get name
  let resolved := resolveConfig env config?
  let config := resolved.1
  let calls := Call.get name :: resolved.2
  if containsSubstr current "unknown oid" then
    (Except.ok { ret with
        result := some false,
        comment := "This sysctl parameter is unknown to the system" }, calls)
  else if env.test then
    let configured := env.showConfig config
    let calls := calls ++ [Call.showConf config]
    match configured.lookup name with
    | none => (Except.error (PyErr.keyError name), calls)
    | some fileVal =>
        let memOK := pySplit current == pySplit value
        let fileOK := pySplit fileVal == pySplit value
        if memOK && fileOK then
          (Except.ok { ret with
              result := some true,
              comment := s!"Sysctl value {name} = {value} is already set" }, calls)
        else if memOK && !fileOK then
          (Except.ok { ret with
              result := none,
              changes := [("old", fileVal), ("new", value)],
              comment := "Sysctl value is currently set on the running system but not correct in config file. Will adjust config file accordingly." }, calls)
        else if !memOK && fileOK then
          (Except.ok { ret with
              result := none,
              changes := [("old", current), ("new", value)],
              comment := "Current running sysctl configuration is different from config. Will adjust running sysctl value." }, calls)
        else
          (Except.ok { ret with
              result := none,
              changes := [("new", value)],
              comment := "Sysctl option set to be changed." }, calls)
  else
    let calls := calls ++ [Call.persist name value config]
    match env.persist name value config with
    | Except.error exc =>
        (Except.ok { ret with
            result := some false,
            comment := s!"Failed to set {name} to {value}: {exc}" }, calls)
    | Except.ok update =>
        if update == "Updated" then
          (Except.ok { ret with
              changes := [(name, value)],
              comment := s!"Updated sysctl value {name} = {value}" }, calls)
        else if update == "Already set" then
          (Except.ok { ret with
              comment := s!"Sysctl value {name} = {value} is already set" }, calls)
        else
          (Except.ok ret, calls)

deriving instance DecidableEq for Except

/-- A dry-run environment: live value "10  20", persisted value "10 20"
for vm.swappiness, no platform default-config collaborator. -/
def envDry : Env :=
  { get := fun _ => "10  20",
    hasDefaultConfig := false,
    defaultConfig := "/etc/sysctl.conf",
    showConfig := fun _ => [("vm.swappiness", "10 20")],
    persist := fun _ _ _ => Except.ok "Updated",
    test := true }

/-- An environment whose live-value reader reports an unknown oid for
every name, with a default-config collaborator available. -/
def envUnknown : Env :=
  { get := fun _ => "sysctl: unknown oid 'net.bogus'",
    hasDefaultConfig := true,
    defaultConfig := "/etc/sysctl.d/99-salt.conf",
    showConfig := fun _ => [],
    persist := fun _ _ _ => Except.ok "Updated",
    test := false }

/-- An apply-mode environment whose persist collaborator reports the
value as already set. -/
def envApplySet : Env :=
  { get := fun _ => "20",
    hasDefaultConfig := false,
    defaultConfig := "/etc/sysctl.conf",
    showConfig := fun _ => [("vm.swappiness", "20")],
    persist := fun _ _ _ => Except.ok "Already set",
    test := false }

/-- An apply-mode environment whose persist collaborator reports an
update. -/
def envApplyUpd : Env :=
  { envApplySet with persist := fun _ _ _ => Except.ok "Updated" }

/-- An apply-mode environment whose persist collaborator raises a
command-execution failure. -/
def envApplyFail : Env :=
  { envApplySet with persist := fun _ _ _ => Except.error "permission denied" }

/-- A dry-run environment whose persisted mapping is empty, as when the
persistence file is missing. -/
def envEmptyFile : Env :=
  { envDry with get := fun _ => "10", showConfig := fun _ => [] }

/-- The config-resolution step performs no persisted-config read and no
persist: its trace is empty or the single default-config query. -/
theorem resolveConfig_trace (env : Env) (config? : Option String) :
    (resolveConfig env config?).2 = [] ∨
      (resolveConfig env config?).2 = [Call.defaultConfig] := by
  rcases config? with _ | c
  · by_cases h : env.hasDefaultConfig = true <;> simp [resolveConfig, h]
  · simp [resolveConfig]

/-- The full collaborator trace of one call of present: the live read,
then the config resolution, then (unless the name is unknown) exactly one
persisted-config read in dry-run mode or exactly one persist in apply
mode. -/
theorem present_trace (env : Env) (name value : String) (config? : Option String) :
    (present env name value config?).2 =
      Call.get name :: (resolveConfig env config?).2 ++
        (if containsSubstr (env.get name) "unknown oid" = true then []
         else if env.test = true then [Call.showConf (resolveConfig env config?).1]
         else [Call.persist name value (resolveConfig env config?).1]) := by
  by_cases hu : containsSubstr (env.get name) "unknown oid" = true
  · simp [present, hu]
  · by_cases ht : env.test = true
    · rcases hl : List.lookup name (env.showConfig (resolveConfig env config?).1) with _ | fv
      · simp [present, hu, ht, hl]
      · simp [present, hu, ht, hl]
        split_ifs <;> simp
    · rcases hp : env.persist name value (resolveConfig env config?).1 with e | u
      · simp [present, hu, ht, hp]
      · simp [present, hu, ht, hp]
        split_ifs <;> simp

/-- Claim C1: in dry-run mode, for a known parameter that is present in
the persisted mapping, present classifies by precedence on the two
booleans memOK (whitespace-tokenized current value equals tokenized
desired value) and fileOK (tokenized persisted value equals tokenized
desired value): both give success true with empty changes; memOK only
gives pending with changes old = persisted value, new = desired value;
fileOK only gives pending with changes old = current value, new = desired
value; neither gives pending with changes holding only the new key.
Values that tokenize identically on whitespace are equal in both
comparisons since both are computed with pySplit. -/
theorem present_dry_run_classification (env : Env) (name value fileVal : String)
    (config? : Option String)
    (htest : env.test = true)
    (hcur : containsSubstr (env.get name) "unknown oid" = false)
    (hfile : List.lookup name (env.showConfig (resolveConfig env config?).1) = some fileVal) :
    (present env name value config?).1 =
      (if pySplit (env.get name) == pySplit value && (pySplit fileVal == pySplit value) then
        Except.ok { name := name, result := some true, changes := [], comment := s!"Sysctl value {name} = {value} is already set" }
      else if pySplit (env.get name) == pySplit value && !(pySplit fileVal == pySplit value) then
        Except.ok { name := name, result := none, changes := [("old", fileVal), ("new", value)], comment := "Sysctl value is currently set on the running system but not correct in config file. Will adjust config file accordingly." }
      else if !(pySplit (env.get name) == pySplit value) && (pySplit fileVal == pySplit value) then
        Except.ok { name := name, result := none, changes := [("old", env.get name), ("new", value)], comment := "Current running sysctl configuration is different from config. Will adjust running sysctl value." }
      else
        Except.ok { name := name, result := none, changes := [("new", value)], comment := "Sysctl option set to be changed." }) := by
  simp [present, hcur, htest, hfile]
  split_ifs <;> rfl

/-- Witness for claim C1: in envDry the current value "10  20" and the
desired value "10 20" tokenize identically, as do the persisted value,
so the dry run reports success with empty changes. -/
theorem present_dry_run_classification_witness :
    (envDry.test = true ∧
     containsSubstr (envDry.get "vm.swappiness") "unknown oid" = false ∧
     List.lookup "vm.swappiness" (envDry.showConfig (resolveConfig envDry none).1) = some "10 20") ∧
    (present envDry "vm.swappiness" "10 20" none).1 =
      Except.ok { name := "vm.swappiness", result := some true, changes := [], comment := "Sysctl value vm.swappiness = 10 20 is already set" } :=
  ⟨⟨rfl, by decide, by decide⟩,
    (present_dry_run_classification envDry "vm.swappiness" "10 20" "10 20" none rfl (by decide) (by decide)).trans (by decide)⟩

/-- Claim C2: whenever the live value contains "unknown oid", present
returns success false, empty changes and the unknown-parameter message,
and its trace holds no persisted-config read and no persist, in both
modes and for every input. -/
theorem present_unknown_oid (env : Env) (name value : String) (config? : Option String)
    (h : containsSubstr (env.get name) "unknown oid" = true) :
    (present env name value config?).1 = Except.ok
      { name := name, result := some false, changes := [], comment := "This sysctl parameter is unknown to the system" } ∧
    ∀ c ∈ (present env name value config?).2,
      isShowCall c = false ∧ isPersistCall c = false := by
  constructor
  · simp [present, h]
  · intro c hc
    rw [present_trace] at hc
    simp [h] at hc
    rcases resolveConfig_trace env config? with h2 | h2
    · rw [h2] at hc
      simp at hc
      subst hc
      exact ⟨rfl, rfl⟩
    · rw [h2] at hc
      simp at hc
      rcases hc with rfl | rfl <;> exact ⟨rfl, rfl⟩

/-- Witness for claim C2 at a concrete unknown-oid environment. -/
theorem present_unknown_oid_witness :
    containsSubstr (envUnknown.get "net.bogus") "unknown oid" = true ∧
    ((present envUnknown "net.bogus" "1" (some "/etc/sysctl.conf")).1 = Except.ok { name := "net.bogus", result := some false, changes := [], comment := "This sysctl parameter is unknown to the system" } ∧
     ∀ c ∈ (present envUnknown "net.bogus" "1" (some "/etc/sysctl.conf")).2, isShowCall c = false ∧ isPersistCall c = false) :=
  ⟨by decide, present_unknown_oid envUnknown "net.bogus" "1" (some "/etc/sysctl.conf") (by decide)⟩

/-- Claim C3: in dry-run mode no persist invocation ever occurs, and the
trace stays within the live read, the config resolution and one
persisted-config read (at most three collaborator invocations). -/
theorem present_dry_run_no_persist (env : Env) (name value : String)
    (config? : Option String) (htest : env.test = true) :
    (∀ c ∈ (present env name value config?).2, isPersistCall c = false) ∧
    (present env name value config?).2.length ≤ 3 := by
  have htr := present_trace env name value config?
  constructor
  · intro c hc
    rw [htr] at hc
    by_cases hu : containsSubstr (env.get name) "unknown oid" = true <;>
      simp [hu, htest] at hc <;>
        rcases resolveConfig_trace env config? with h2 | h2 <;> rw [h2] at hc <;> simp at hc
    · subst hc; rfl
    · rcases hc with rfl | rfl <;> rfl
    · rcases hc with rfl | rfl <;> rfl
    · rcases hc with rfl | rfl | rfl <;> rfl
  · rw [htr]
    rcases resolveConfig_trace env config? with h2 | h2 <;> rw [h2] <;>
      by_cases hu : containsSubstr (env.get name) "unknown oid" = true <;>
        simp [hu, htest]

/-- Witness for claim C3 at a concrete dry-run environment. -/
theorem present_dry_run_no_persist_witness :
    envDry.test = true ∧
    ((∀ c ∈ (present envDry "net.core.somaxconn" "128" none).2, isPersistCall c = false) ∧
     (present envDry "net.core.somaxconn" "128" none).2.length ≤ 3) :=
  ⟨rfl, present_dry_run_no_persist envDry "net.core.somaxconn" "128" none rfl⟩

/-- Claim C4: in apply mode for a known parameter, the status token
returned by the persist collaborator determines the result: Updated gives
success true with changes mapping name to value and the updated message;
Already set gives success true, empty changes and the already-set
message; any other token leaves the initial defaults, namely success
true, empty changes and empty message. -/
theorem present_apply_status (env : Env) (name value token : String) (config? : Option String)
    (htest : env.test = false)
    (hcur : containsSubstr (env.get name) "unknown oid" = false)
    (hpersist : env.persist name value (resolveConfig env config?).1 = Except.ok token) :
    (present env name value config?).1 =
      (if token == "Updated" then
        Except.ok { name := name, result := some true, changes := [(name, value)], comment := s!"Updated sysctl value {name} = {value}" }
      else if token == "Already set" then
        Except.ok { name := name, result := some true, changes := [], comment := s!"Sysctl value {name} = {value} is already set" }
      else
        Except.ok { name := name, result := some true, changes := [], comment := "" }) := by
  simp [present, hcur, htest, hpersist]
  split_ifs <;> rfl

/-- Witness for claim C4 with the persist collaborator reporting
Updated. -/
theorem present_apply_status_witness :
    (envApplyUpd.test = false ∧
     containsSubstr (envApplyUpd.get "vm.swappiness") "unknown oid" = false ∧
     envApplyUpd.persist "vm.swappiness" "20" (resolveConfig envApplyUpd none).1 = Except.ok "Updated") ∧
    (present envApplyUpd "vm.swappiness" "20" none).1 =
      Except.ok { name := "vm.swappiness", result := some true, changes := [("vm.swappiness", "20")], comment := "Updated sysctl value vm.swappiness = 20" } :=
  ⟨⟨rfl, by decide, rfl⟩,
    (present_apply_status envApplyUpd "vm.swappiness" "20" "Updated" none rfl (by decide) rfl).trans (by decide)⟩

/-- Claim C5: in apply mode, a command-execution failure raised by the
persist collaborator is caught and converted into success false with
empty changes and the failure message embedding the name, the value and
the error text; present still returns a structured result, so the
exception does not propagate. -/
theorem present_persist_failure (env : Env) (name value err : String) (config? : Option String)
    (htest : env.test = false)
    (hcur : containsSubstr (env.get name) "unknown oid" = false)
    (hpersist : env.persist name value (resolveConfig env config?).1 = Except.error err) :
    (present env name value config?).1 =
      Except.ok { name := name, result := some false, changes := [], comment := s!"Failed to set {name} to {value}: {err}" } := by
  simp [present, hcur, htest, hpersist]

/-- Witness for claim C5 with a permission-denied failure. -/
theorem present_persist_failure_witness :
    (envApplyFail.test = false ∧
     containsSubstr (envApplyFail.get "vm.swappiness") "unknown oid" = false ∧
     envApplyFail.persist "vm.swappiness" "20" (resolveConfig envApplyFail none).1 = Except.error "permission denied") ∧
    (present envApplyFail "vm.swappiness" "20" none).1 =
      Except.ok { name := "vm.swappiness", result := some false, changes := [], comment := "Failed to set vm.swappiness to 20: permission denied" } :=
  ⟨⟨rfl, by decide, rfl⟩,
    (present_persist_failure envApplyFail "vm.swappiness" "20" "permission denied" none rfl (by decide) rfl).trans (by decide)⟩

/-- Claim C6 (failing input): in dry-run mode with a known live value but
a persisted mapping that lacks the requested name, present does not
return a structured result: the dict access configured[name] raises
KeyError, which escapes present. -/
theorem present_dry_run_keyerror :
    (present envEmptyFile "vm.swappiness" "20" none).1 =
      Except.error (PyErr.keyError "vm.swappiness") := by decide

/-- Claim C7 (counterexample): with an unknown oid and no supplied config
path, the default-config resolver is consulted before the failure result
is produced, so the unknown-parameter classification does not precede the
configuration-path resolution. -/
theorem present_unknown_consults_resolver :
    Call.defaultConfig ∈ (present envUnknown "net.bogus" "1" none).2 ∧
    (present envUnknown "net.bogus" "1" none).1 = Except.ok { name := "net.bogus", result := some false, changes := [], comment := "This sysctl parameter is unknown to the system" } := by
  constructor <;> decide

/-- Claim C7 (amended): present resolves the configuration path before
the unknown-parameter classification, so with an unknown oid and no
supplied config the trace is exactly the live read followed by the
default-config query, and the failure result is still returned before
dry-run branching, before any persisted-config read and before any
persist. -/
theorem present_unknown_kept_before_branching (env : Env) (name value : String)
    (h : containsSubstr (env.get name) "unknown oid" = true)
    (hdef : env.hasDefaultConfig = true) :
    (present env name value none).2 = [Call.get name, Call.defaultConfig] ∧
    (present env name value none).1 = Except.ok { name := name, result := some false, changes := [], comment := "This sysctl parameter is unknown to the system" } := by
  constructor
  · rw [present_trace]
    simp [h, resolveConfig, hdef]
  · simp [present, h]

/-- Witness for the amended claim C7 at a concrete unknown-oid
environment. -/
theorem present_unknown_kept_before_branching_witness :
    (containsSubstr (envUnknown.get "net.bogus") "unknown oid" = true ∧
     envUnknown.hasDefaultConfig = true) ∧
    ((present envUnknown "net.bogus" "1" none).2 = [Call.get "net.bogus", Call.defaultConfig] ∧
     (present envUnknown "net.bogus" "1" none).1 = Except.ok { name := "net.bogus", result := some false, changes := [], comment := "This sysctl parameter is unknown to the system" }) :=
  ⟨⟨by decide, rfl⟩, present_unknown_kept_before_branching envUnknown "net.bogus" "1" (by decide) rfl⟩

/-- Claim C8: whenever present returns a structured result, its changes
field is non-empty exactly when dry-run mode found the name in the
persisted mapping and detected a discrepancy with memory or file, or
apply mode received the Updated status token; changes is empty in the
already-correct, unknown-parameter, persist-failure and unrecognized
token cases. -/
theorem present_changes_iff (env : Env) (name value : String) (config? : Option String)
    (r : StateRet) (h : (present env name value config?).1 = Except.ok r) :
    r.changes ≠ [] ↔
      ((env.test = true ∧ containsSubstr (env.get name) "unknown oid" = false ∧
        ∃ fv, List.lookup name (env.showConfig (resolveConfig env config?).1) = some fv ∧
          ¬(pySplit (env.get name) = pySplit value ∧ pySplit fv = pySplit value)) ∨
      (env.test = false ∧ containsSubstr (env.get name) "unknown oid" = false ∧
        env.persist name value (resolveConfig env config?).1 = Except.ok "Updated")) := by
  by_cases hu : containsSubstr (env.get name) "unknown oid" = true
  · simp [present, hu] at h
    subst h
    simp [hu]
  · simp only [Bool.not_eq_true] at hu
    by_cases ht : env.test = true
    · rcases hl : List.lookup name (env.showConfig (resolveConfig env config?).1) with _ | fv
      · simp [present, hu, ht, hl] at h
      · simp [present, hu, ht, hl] at h
        split_ifs at h with h1 h2 h3
        · simp at h; subst h; simp [hu, ht, hl, h1.1, h1.2]
        · simp at h; subst h; simp [hu, ht, hl, h2.2]
        · simp at h; subst h; simp [hu, ht, hl, h3.1]
        · simp at h
          subst h
          simp [hu, ht, hl]
          tauto
    · simp only [Bool.not_eq_true] at ht
      rcases hp : env.persist name value (resolveConfig env config?).1 with e | u
      · simp [present, hu, ht, hp] at h
        subst h
        simp [ht, hp]
      · simp [present, hu, ht, hp] at h
        split_ifs at h with hU hA
        · simp at h; subst h; subst hU; simp [hu, ht, hp]
        · simp at h; subst h; simp [ht, hp, hU]
        · simp at h; subst h; simp [ht, hp, hU]

/-- Witness for claim C8: a dry run that disagrees with both memory and
file yields a non-empty changes dict, and the equivalence holds at that
input. -/
theorem present_changes_iff_witness :
    ((present envDry "vm.swappiness" "30" none).1 =
      Except.ok { name := "vm.swappiness", result := none, changes := [("new", "30")], comment := "Sysctl option set to be changed." }) ∧
    (({ name := "vm.swappiness", result := none, changes := [("new", "30")], comment := "Sysctl option set to be changed." } : StateRet).changes ≠ [] ↔
      ((envDry.test = true ∧ containsSubstr (envDry.get "vm.swappiness") "unknown oid" = false ∧
        ∃ fv, List.lookup "vm.swappiness" (envDry.showConfig (resolveConfig envDry none).1) = some fv ∧
          ¬(pySplit (envDry.get "vm.swappiness") = pySplit "30" ∧ pySplit fv = pySplit "30")) ∨
      (envDry.test = false ∧ containsSubstr (envDry.get "vm.swappiness") "unknown oid" = false ∧
        envDry.persist "vm.swappiness" "30" (resolveConfig envDry none).1 = Except.ok "Updated"))) :=
  ⟨by decide,
   present_changes_iff envDry "vm.swappiness" "30" none
     { name := "vm.swappiness", result := none, changes := [("new", "30")], comment := "Sysctl option set to be changed." }
     (by decide)⟩

/-- Claim C9: in apply mode with a known name, when the persist
collaborator reports the value as already set, present returns success
true with the already-set message and empty changes, and the trace holds
exactly one persist invocation, so repeated converged applications stay
observationally idempotent. -/
theorem present_apply_already_set (env : Env) (name value : String) (config? : Option String)
    (htest : env.test = false)
    (hcur : containsSubstr (env.get name) "unknown oid" = false)
    (hpersist : env.persist name value (resolveConfig env config?).1 = Except.ok "Already set") :
    (present env name value config?).1 =
      Except.ok { name := name, result := some true, changes := [], comment := s!"Sysctl value {name} = {value} is already set" } ∧
    List.filter isPersistCall (present env name value config?).2 =
      [Call.persist name value (resolveConfig env config?).1] := by
  constructor
  · simp [present, hcur, htest, hpersist]
  · rw [present_trace]
    rcases resolveConfig_trace env config? with h2 | h2 <;> rw [h2] <;>
      simp [hcur, htest, isPersistCall, List.filter]

/-- Witness for claim C9 at a concrete already-converged environment. -/
theorem present_apply_already_set_witness :
    (envApplySet.test = false ∧
     containsSubstr (envApplySet.get "vm.swappiness") "unknown oid" = false ∧
     envApplySet.persist "vm.swappiness" "20" (resolveConfig envApplySet none).1 = Except.ok "Already set") ∧
    ((present envApplySet "vm.swappiness" "20" none).1 =
       Except.ok { name := "vm.swappiness", result := some true, changes := [], comment := "Sysctl value vm.swappiness = 20 is already set" } ∧
     List.filter isPersistCall (present envApplySet "vm.swappiness" "20" none).2 =
       [Call.persist "vm.swappiness" "20" (resolveConfig envApplySet none).1]) :=
  ⟨⟨rfl, by decide, rfl⟩,
   present_apply_already_set envApplySet "vm.swappiness" "20" none rfl (by decide) rfl⟩

/-- Claim C10: every structured result returned by present carries the
name key equal to the input name, on every return path. -/
theorem present_name_preserved (env : Env) (name value : String) (config? : Option String)
    (r : StateRet) (h : (present env name value config?).1 = Except.ok r) :
    r.name = name := by
  by_cases hu : containsSubstr (env.get name) "unknown oid" = true
  · simp [present, hu] at h
    subst h
    rfl
  · simp only [Bool.not_eq_true] at hu
    by_cases ht : env.test = true
    · rcases hl : List.lookup name (env.showConfig (resolveConfig env config?).1) with _ | fv
      · simp [present, hu, ht, hl] at h
      · simp [present, hu, ht, hl] at h
        split_ifs at h <;> (simp at h; subst h; rfl)
    · simp only [Bool.not_eq_true] at ht
      rcases hp : env.persist name value (resolveConfig env config?).1 with e | u
      · simp [present, hu, ht, hp] at h
        subst h
        rfl
      · simp [present, hu, ht, hp] at h
        split_ifs at h <;> (simp at h; subst h; rfl)

/-- Witness for claim C10 at a concrete applied update. -/
theorem present_name_preserved_witness :
    ((present envApplyUpd "vm.swappiness" "20" none).1 =
      Except.ok { name := "vm.swappiness", result := some true, changes := [("vm.swappiness", "20")], comment := "Updated sysctl value vm.swappiness = 20" }) ∧
    ({ name := "vm.swappiness", result := some true, changes := [("vm.swappiness", "20")], comment := "Updated sysctl value vm.swappiness = 20" } : StateRet).name = "vm.swappiness" :=
  ⟨by decide,
   present_name_preserved envApplyUpd "vm.swappiness" "20" none
     { name := "vm.swappiness", result := some true, changes := [("vm.swappiness", "20")], comment := "Updated sysctl value vm.swappiness = 20" }
     (by decide)⟩

end Sysctl
